import Mathlib

/-!
Shallow embedding of the InclusiveAI assist-mode scan pipeline:
the `CameraScanner` feature accumulation (MediaPipe hand/pose callbacks and
speech recognition), its `completeScan`/`stopScan` finalization, and the
`RecommendationCard` confidence gate.  JavaScript numbers are modelled as ℚ.
-/

namespace InclusiveAI

/-- A MediaPipe landmark in normalized frame coordinates. -/
structure Landmark where
  x : ℚ
  y : ℚ
  z : ℚ
deriving Repr, DecidableEq

/-- One hand = the list of its landmarks; `hand[0]` is the wrist. -/
abbrev Hand := List Landmark

/-- An entry of `handMovementHistory`: `{ x, y, z, time }` built from a wrist. -/
structure HandSample where
  x : ℚ
  y : ℚ
  z : ℚ
  time : ℚ
deriving Repr, DecidableEq

/-- The `gazePattern` strings `'normal'` / `'inconsistent'`. -/
inductive GazePattern
  | normal
  | inconsistent
deriving Repr, DecidableEq

/-- The `posture` strings `'seated'` / `'standing'`. -/
inductive Posture
  | seated
  | standing
deriving Repr, DecidableEq

/-- One entry of a `SpeechRecognition` result list: its `isFinal` flag and
transcript (`event.results[i][0].transcript`). -/
structure SpeechResult where
  isFinal : Bool
  transcript : String
deriving Repr, DecidableEq

/-- The `features` state of `CameraScanner` (initial values at lines 268-276).
`gazePattern`, `posture`, `interactionBehavior` start as `null` (`none`). -/
structure Features where
  handSignFreq : ℚ
  speechDetected : Bool
  gazePattern : Option GazePattern
  posture : Option Posture
  interactionBehavior : Option String
  handMovementHistory : List HandSample
  speechHistory : List String
deriving Repr, DecidableEq

/-- The `liveStats` state of `CameraScanner` (lines 261-267). -/
structure LiveStats where
  handsDetected : Nat
  gesturesCount : Nat
  speechDetected : Bool
  faceDetected : Bool
  poseDetected : Bool
deriving Repr, DecidableEq

/-- The component state the scan logic reads and writes. -/
structure ScannerState where
  isScanning : Bool
  features : Features
  liveStats : LiveStats
deriving Repr, DecidableEq

/-- Initial `useState` value of `features`. -/
def initialFeatures : Features :=
  { handSignFreq := 0
    speechDetected := false
    gazePattern := none
    posture := none
    interactionBehavior := none
    handMovementHistory := []
    speechHistory := [] }

/-- Initial `useState` value of `liveStats`. -/
def initialLiveStats : LiveStats :=
  { handsDetected := 0
    gesturesCount := 0
    speechDetected := false
    faceDetected := false
    poseDetected := false }

/-- Scanner state right after `startScan` set `isScanning = true`. -/
def initialState : ScannerState :=
  { isScanning := true, features := initialFeatures, liveStats := initialLiveStats }

/-- JavaScript `array.slice(-n)`: the last `n` elements (all of them if fewer). -/
def sliceLast (n : Nat) (l : List α) : List α :=
  l.drop (l.length - n)

/-- Squared planar displacement.  The source computes
`Math.sqrt((lastPos.x-prevPos.x)^2 + (lastPos.y-prevPos.y)^2)` and compares it
with `0.01`; since the radicand is nonnegative and `sqrt` is strictly
monotone, `sqrt d > 0.01` holds exactly when `d > 0.0001`, so the embedding
compares the squared displacement with `1/10000`. -/
def distSq (p q : HandSample) : ℚ :=
  (p.x - q.x) ^ 2 + (p.y - q.y) ^ 2

/-- The `handPositions` list built by `analyzeHandGestures`: each hand
contributes its wrist `hand[0]` together with the current time (MediaPipe
hands always carry 21 landmarks; `headD` covers the unreachable empty
hand). -/
def wristSamples (hands : List Hand) (currentTime : ℚ) : List HandSample :=
  hands.map fun hand =>
    let wrist := hand.headD ⟨0, 0, 0⟩
    ⟨wrist.x, wrist.y, wrist.z, currentTime⟩

/-- Embedding of `analyzeHandGestures` (CameraScanner lines 392-432).  Appends the wrist
samples to the movement history, keeps the last 10 samples, and bumps
`handSignFreq` by `0.2` when the two most recent samples are more than `0.01`
apart, capping at `10`. -/
def analyzeHandGestures (hands : List Hand) (currentTime : ℚ)
    (s : ScannerState) : ScannerState :=
  if hands.length > 0 then
    let handPositions : List HandSample := wristSamples hands currentTime
    let recentHistory := sliceLast 10 (s.features.handMovementHistory ++ handPositions)
    let n := recentHistory.length
    let movementFreq :=
      if 2 ≤ n then
        let lastPos := recentHistory.getD (n - 1) ⟨0, 0, 0, 0⟩
        let prevPos := recentHistory.getD (n - 2) ⟨0, 0, 0, 0⟩
        if 1 / 10000 < distSq lastPos prevPos then
          s.features.handSignFreq + 2 / 10
        else
          s.features.handSignFreq
      else
        s.features.handSignFreq
    { s with
      features := { s.features with
        handSignFreq := min movementFreq 10
        handMovementHistory := recentHistory }
      liveStats := { s.liveStats with
        gesturesCount := s.liveStats.gesturesCount + 1 } }
  else
    s

/-- Embedding of `hands.onResults` (lines 298-321): guarded by `isScanning`; when
`multiHandLandmarks` is present it analyzes the gestures and records the
number of detected hands. -/
def handsOnResults (multiHandLandmarks : Option (List Hand)) (currentTime : ℚ)
    (s : ScannerState) : ScannerState :=
  if s.isScanning then
    match multiHandLandmarks with
    | some hands =>
        let s1 := analyzeHandGestures hands currentTime s
        { s1 with liveStats := { s1.liveStats with handsDetected := hands.length } }
    | none => s
  else
    s

/-- Embedding of `analyzePose` (lines 434-456): when both hips (indices 23, 24) and both
ankles (indices 27, 28) are present, classify `seated` when the hip-to-ankle
vertical separation is below `0.2`, else `standing`. -/
def analyzePose (landmarks : List Landmark) (s : ScannerState) : ScannerState :=
  match landmarks.get? 23, landmarks.get? 24, landmarks.get? 27, landmarks.get? 28 with
  | some leftHip, some rightHip, some leftAnkle, some rightAnkle =>
      let hipY := (leftHip.y + rightHip.y) / 2
      let ankleY := (leftAnkle.y + rightAnkle.y) / 2
      let hipAnkleDiff := |hipY - ankleY|
      let posture : Posture := if hipAnkleDiff < 2 / 10 then .seated else .standing
      { s with features := { s.features with posture := some posture } }
  | _, _, _, _ => s

/-- Embedding of `pose.onResults` (lines 341-374): guarded by `isScanning`; when pose
landmarks are present it runs `analyzePose`, then uses the nose landmark
(index 0) for the simplified gaze classification (`inconsistent` when the
nose x-coordinate leaves `[0.3, 0.7]`). -/
def poseOnResults (poseLandmarks : Option (List Landmark))
    (s : ScannerState) : ScannerState :=
  if s.isScanning then
    match poseLandmarks with
    | some landmarks =>
        let s1 := analyzePose landmarks s
        match landmarks.get? 0 with
        | some nose =>
            let gazePattern : GazePattern :=
              if nose.x < 3 / 10 ∨ 7 / 10 < nose.x then .inconsistent else .normal
            { s1 with
              features := { s1.features with gazePattern := some gazePattern }
              liveStats := { s1.liveStats with faceDetected := true, poseDetected := true } }
        | none => s1
    | none => s
  else
    s

/-- The body of the `recognition.onresult` loop for one result: an `isFinal`
result sets `features.speechDetected` and appends its transcript to the
(5-bounded) speech history; an interim result changes nothing. -/
def speechStep (acc : ScannerState) (r : SpeechResult) : ScannerState :=
  if r.isFinal then
    { acc with features := { acc.features with
        speechDetected := true
        speechHistory := sliceLast 5 acc.features.speechHistory ++ [r.transcript] } }
  else
    acc

/-- Embedding of `recognition.onresult` (lines 469-489): iterates over the event's
results; if any result in the event was final, `liveStats` records speech as
detected.  Not guarded by `isScanning`. -/
def recognitionOnResult (results : List SpeechResult) (s : ScannerState) : ScannerState :=
  let s1 := results.foldl speechStep s
  if results.any (·.isFinal) then
    { s1 with liveStats := { s1.liveStats with speechDetected := true } }
  else
    s1

/-- One perception event delivered to the scanner's callbacks. -/
inductive PerceptionEvent
  | handFrame (multiHandLandmarks : Option (List Hand)) (time : ℚ)
  | poseFrame (poseLandmarks : Option (List Landmark))
  | speechResult (results : List SpeechResult)
deriving Repr, DecidableEq

/-- Dispatch one event to the callback that handles it. -/
def processEvent (s : ScannerState) : PerceptionEvent → ScannerState
  | .handFrame hands t => handsOnResults hands t s
  | .poseFrame lms => poseOnResults lms s
  | .speechResult rs => recognitionOnResult rs s

/-- Process a whole stream of perception events. -/
def processEvents (s : ScannerState) (evs : List PerceptionEvent) : ScannerState :=
  evs.foldl processEvent s

def isHandEvent : PerceptionEvent → Bool
  | .handFrame _ _ => true
  | _ => false

def isPoseEvent : PerceptionEvent → Bool
  | .poseFrame _ => true
  | _ => false

def isSpeechEvent : PerceptionEvent → Bool
  | .speechResult _ => true
  | _ => false

/-- Whether a perception event carries at least one finalized speech result. -/
def hasFinalSpeech : PerceptionEvent → Bool
  | .speechResult rs => rs.any (·.isFinal)
  | _ => false

/-- The `features` object of the `scanResults` built by `completeScan`
(lines 633-643); the wall-clock `timestamp` field is omitted. -/
structure ScanFeatures where
  handSignFreq : ℚ
  speechDetected : Bool
  gazePattern : GazePattern
  posture : Posture
  interactionBehavior : Option String
deriving Repr, DecidableEq

/-- The `scanResults` object passed to `onScanComplete`. -/
structure ScanResults where
  features : ScanFeatures
  duration : Nat
deriving Repr, DecidableEq

/-- The constant `scanDuration = 20000` (line 278). -/
def scanDuration : Nat := 20000

/-- The `scanResults.features` construction in `completeScan`:
`handSignFreq` is re-capped at 10, `speechDetected` ORs the feature flag with
the live-stats flag, and `x || default` fills nullish (and, for strings,
empty — JavaScript falsiness) fields with neutral defaults. -/
def scanFeatures (s : ScannerState) : ScanFeatures :=
  { handSignFreq := min s.features.handSignFreq 10
    speechDetected := s.features.speechDetected || s.liveStats.speechDetected
    gazePattern := s.features.gazePattern.getD .normal
    posture := s.features.posture.getD .standing
    interactionBehavior :=
      match s.features.interactionBehavior with
      | some t => if t = "" then none else some t
      | none => none }

/-- Embedding of `completeScan` (lines 598-649): stops capture, builds `scanResults` from
whatever state was accumulated, and delivers it via `onScanComplete`.  The
second component is the value handed to `onScanComplete`. -/
def completeScan (s : ScannerState) : ScannerState × Option ScanResults :=
  ({ s with isScanning := false },
   some { features := scanFeatures s, duration := scanDuration })

/-- Embedding of `stopScan` (lines 651-671): stops capture and the progress interval and
clears `isScanning`, but never builds `scanResults` and never calls
`onScanComplete` — hence the `none` in the second component. -/
def stopScan (s : ScannerState) : ScannerState × Option ScanResults :=
  ({ s with isScanning := false }, none)

/-- Embedding of `isHighConfidence` (RecommendationCard.jsx line 47): strict comparison
`confidence > 0.7`. -/
def isHighConfidence (confidence : ℚ) : Bool :=
  decide (7 / 10 < confidence)

/-- The Accept Recommendation button (RecommendationCard.jsx lines 111-119)
has `disabled = !isHighConfidence`, so the accept action is enabled exactly
when `isHighConfidence` holds. -/
def acceptEnabled (confidence : ℚ) : Bool :=
  ! (! isHighConfidence confidence)

/-- The five assist modes. -/
inductive Mode
  | voice
  | sign
  | text
  | gesture
  | motor
deriving Repr, DecidableEq

/-- A total score map over the five modes. -/
structure ModeScoreMap where
  voice : ℚ
  sign : ℚ
  text : ℚ
  gesture : ℚ
  motor : ℚ
deriving Repr, DecidableEq

def ModeScoreMap.get (m : ModeScoreMap) : Mode → ℚ
  | .voice => m.voice
  | .sign => m.sign
  | .text => m.text
  | .gesture => m.gesture
  | .motor => m.motor

/-- Position of a mode in the fixed priority order `voice, sign, text,
gesture, motor`. -/
def priorityIdx : Mode → Nat
  | .voice => 0
  | .sign => 1
  | .text => 2
  | .gesture => 3
  | .motor => 4

/-- The fixed priority order. -/
def modePriority : List Mode := [.voice, .sign, .text, .gesture, .motor]

/-- Modelled from the spec: the backend Scoring Engine behind
`POST /api/assist-scan` is not under `src/` (only its frontend caller
`api.js` and test documentation are), so the recommendation picker is taken
from the spec's words: the recommended mode is the arg-max of the score map,
with ties resolved by the fixed priority order `voice > sign > text >
gesture > motor`.  The fold replaces the running best only on a strictly
greater score, so the earliest of any tied maxima is kept. -/
def recommendMode (scores : ModeScoreMap) : Mode :=
  modePriority.foldl
    (fun best m => if scores.get best < scores.get m then m else best)
    .voice

/-! ## Supporting lemmas: which fields each callback can touch -/

lemma speechStep_foldl (rs : List SpeechResult) (s : ScannerState) :
    (rs.foldl speechStep s).features.speechDetected
        = (s.features.speechDetected || rs.any (·.isFinal)) ∧
    (rs.foldl speechStep s).features.handSignFreq = s.features.handSignFreq ∧
    (rs.foldl speechStep s).features.gazePattern = s.features.gazePattern ∧
    (rs.foldl speechStep s).features.posture = s.features.posture ∧
    (rs.foldl speechStep s).features.interactionBehavior = s.features.interactionBehavior ∧
    (rs.foldl speechStep s).features.handMovementHistory = s.features.handMovementHistory ∧
    (rs.foldl speechStep s).liveStats = s.liveStats ∧
    (rs.foldl speechStep s).isScanning = s.isScanning := by
  induction rs generalizing s with
  | nil => simp
  | cons r rs ih =>
    simp only [List.foldl_cons, List.any_cons]
    rcases ih (speechStep s r) with ⟨h1, h2, h3, h4, h5, h6, h7, h8⟩
    rw [h1, h2, h3, h4, h5, h6, h7, h8]
    unfold speechStep
    split_ifs <;> simp_all

lemma recognitionOnResult_state (rs : List SpeechResult) (s : ScannerState) :
    (recognitionOnResult rs s).features.speechDetected
        = (s.features.speechDetected || rs.any (·.isFinal)) ∧
    (recognitionOnResult rs s).features.handSignFreq = s.features.handSignFreq ∧
    (recognitionOnResult rs s).features.gazePattern = s.features.gazePattern ∧
    (recognitionOnResult rs s).features.posture = s.features.posture ∧
    (recognitionOnResult rs s).features.interactionBehavior = s.features.interactionBehavior ∧
    (recognitionOnResult rs s).features.handMovementHistory = s.features.handMovementHistory ∧
    (recognitionOnResult rs s).liveStats.speechDetected
        = (s.liveStats.speechDetected || rs.any (·.isFinal)) ∧
    (recognitionOnResult rs s).isScanning = s.isScanning := by
  unfold recognitionOnResult
  rcases speechStep_foldl rs s with ⟨h1, h2, h3, h4, h5, h6, h7, h8⟩
  split_ifs with hany <;> simp_all

lemma handsOnResults_state (o : Option (List Hand)) (t : ℚ) (s : ScannerState) :
    (handsOnResults o t s).features.speechDetected = s.features.speechDetected ∧
    (handsOnResults o t s).features.gazePattern = s.features.gazePattern ∧
    (handsOnResults o t s).features.posture = s.features.posture ∧
    (handsOnResults o t s).features.interactionBehavior = s.features.interactionBehavior ∧
    (handsOnResults o t s).features.speechHistory = s.features.speechHistory ∧
    (handsOnResults o t s).liveStats.speechDetected = s.liveStats.speechDetected ∧
    (handsOnResults o t s).isScanning = s.isScanning := by
  unfold handsOnResults analyzeHandGestures
  cases o <;> split_ifs <;> simp_all <;> split_ifs <;> simp_all

lemma analyzePose_state (lms : List Landmark) (s : ScannerState) :
    (analyzePose lms s).features.handSignFreq = s.features.handSignFreq ∧
    (analyzePose lms s).features.handMovementHistory = s.features.handMovementHistory ∧
    (analyzePose lms s).features.speechDetected = s.features.speechDetected ∧
    (analyzePose lms s).features.gazePattern = s.features.gazePattern ∧
    (analyzePose lms s).features.interactionBehavior = s.features.interactionBehavior ∧
    (analyzePose lms s).features.speechHistory = s.features.speechHistory ∧
    (analyzePose lms s).liveStats = s.liveStats ∧
    (analyzePose lms s).isScanning = s.isScanning := by
  unfold analyzePose
  split <;> simp

lemma poseOnResults_state (o : Option (List Landmark)) (s : ScannerState) :
    (poseOnResults o s).features.handSignFreq = s.features.handSignFreq ∧
    (poseOnResults o s).features.handMovementHistory = s.features.handMovementHistory ∧
    (poseOnResults o s).features.speechDetected = s.features.speechDetected ∧
    (poseOnResults o s).features.interactionBehavior = s.features.interactionBehavior ∧
    (poseOnResults o s).features.speechHistory = s.features.speechHistory ∧
    (poseOnResults o s).liveStats.speechDetected = s.liveStats.speechDetected ∧
    (poseOnResults o s).isScanning = s.isScanning := by
  unfold poseOnResults
  cases o with
  | none => simp
  | some lms =>
    rcases analyzePose_state lms s with ⟨a1, a2, a3, a4, a5, a6, a7, a8⟩
    split_ifs with hscan
    · split <;> (try split) <;> simp_all
    · simp

lemma processEvents_cons (s : ScannerState) (e : PerceptionEvent) (evs : List PerceptionEvent) :
    processEvents s (e :: evs) = processEvents (processEvent s e) evs := rfl

lemma processEvent_isScanning (s : ScannerState) (e : PerceptionEvent) :
    (processEvent s e).isScanning = s.isScanning := by
  cases e with
  | handFrame o t => exact (handsOnResults_state o t s).2.2.2.2.2.2
  | poseFrame o => exact (poseOnResults_state o s).2.2.2.2.2.2
  | speechResult rs => exact (recognitionOnResult_state rs s).2.2.2.2.2.2.2

lemma processEvents_isScanning (evs : List PerceptionEvent) (s : ScannerState) :
    (processEvents s evs).isScanning = s.isScanning := by
  induction evs generalizing s with
  | nil => rfl
  | cons e evs ih => rw [processEvents_cons, ih, processEvent_isScanning]

lemma speechDetected_processEvent (s : ScannerState) (e : PerceptionEvent) :
    (processEvent s e).features.speechDetected
        = (s.features.speechDetected || hasFinalSpeech e) ∧
    (processEvent s e).liveStats.speechDetected
        = (s.liveStats.speechDetected || hasFinalSpeech e) := by
  cases e with
  | handFrame o t =>
    simp [processEvent, hasFinalSpeech, (handsOnResults_state o t s).1,
      (handsOnResults_state o t s).2.2.2.2.2.1]
  | poseFrame o =>
    simp [processEvent, hasFinalSpeech, (poseOnResults_state o s).2.2.1,
      (poseOnResults_state o s).2.2.2.2.2.1]
  | speechResult rs =>
    simp [processEvent, hasFinalSpeech, (recognitionOnResult_state rs s).1,
      (recognitionOnResult_state rs s).2.2.2.2.2.2.1]

lemma speechDetected_processEvents (evs : List PerceptionEvent) (s : ScannerState) :
    (processEvents s evs).features.speechDetected
        = (s.features.speechDetected || evs.any hasFinalSpeech) ∧
    (processEvents s evs).liveStats.speechDetected
        = (s.liveStats.speechDetected || evs.any hasFinalSpeech) := by
  induction evs generalizing s with
  | nil => simp [processEvents]
  | cons e evs ih =>
    rcases ih (processEvent s e) with ⟨ihf, ihl⟩
    rcases speechDetected_processEvent s e with ⟨hef, hel⟩
    rw [processEvents_cons]
    constructor
    · rw [ihf, hef, List.any_cons, Bool.or_assoc]
    · rw [ihl, hel, List.any_cons, Bool.or_assoc]

/-- C8: the finalized `speechDetected` equals the boolean OR over all
finalized speech-recognition results observed during the window, and once
`speechDetected` is set it never reverts to `false`. -/
theorem speech_or_rule (evs : List PerceptionEvent) (e : PerceptionEvent) :
    (scanFeatures (processEvents initialState evs)).speechDetected
        = evs.any hasFinalSpeech ∧
    ((processEvents initialState evs).features.speechDetected = true →
      (processEvent (processEvents initialState evs) e).features.speechDetected = true) := by
  rcases speechDetected_processEvents evs initialState with ⟨hf, hl⟩
  constructor
  · show ((processEvents initialState evs).features.speechDetected ||
        (processEvents initialState evs).liveStats.speechDetected) = evs.any hasFinalSpeech
    rw [hf, hl]
    simp [initialState, initialFeatures, initialLiveStats]
  · intro htrue
    rw [(speechDetected_processEvent (processEvents initialState evs) e).1, htrue,
      Bool.true_or]

/-- Witness for C8 at a concrete event stream containing one finalized
speech segment. -/
theorem speech_or_rule_witness :
    (scanFeatures (processEvents initialState
        [.speechResult [⟨true, "hello"⟩]])).speechDetected
      = [PerceptionEvent.speechResult [⟨true, "hello"⟩]].any hasFinalSpeech ∧
    (processEvent (processEvents initialState [.speechResult [⟨true, "hello"⟩]])
        (.poseFrame none)).features.speechDetected = true :=
  ⟨(speech_or_rule [.speechResult [⟨true, "hello"⟩]] (.poseFrame none)).1,
   (speech_or_rule [.speechResult [⟨true, "hello"⟩]] (.poseFrame none)).2 rfl⟩
lemma nonHand_processEvents (evs : List PerceptionEvent) (s : ScannerState)
    (h : evs.all (fun e => !isHandEvent e) = true) :
    (processEvents s evs).features.handSignFreq = s.features.handSignFreq := by
  induction evs generalizing s with
  | nil => rfl
  | cons e evs ih =>
    simp only [List.all_cons, Bool.and_eq_true] at h
    rw [processEvents_cons, ih _ h.2]
    cases e with
    | handFrame o t => simp [isHandEvent] at h
    | poseFrame o => exact (poseOnResults_state o s).1
    | speechResult rs => exact (recognitionOnResult_state rs s).2.1

lemma nonPose_processEvents (evs : List PerceptionEvent) (s : ScannerState)
    (h : evs.all (fun e => !isPoseEvent e) = true) :
    (processEvents s evs).features.gazePattern = s.features.gazePattern ∧
    (processEvents s evs).features.posture = s.features.posture := by
  induction evs generalizing s with
  | nil => exact ⟨rfl, rfl⟩
  | cons e evs ih =>
    simp only [List.all_cons, Bool.and_eq_true] at h
    rw [processEvents_cons]
    rcases ih (processEvent s e) h.2 with ⟨ig, ip⟩
    rw [ig, ip]
    cases e with
    | handFrame o t =>
      exact ⟨(handsOnResults_state o t s).2.1, (handsOnResults_state o t s).2.2.1⟩
    | poseFrame o => simp [isPoseEvent] at h
    | speechResult rs =>
      exact ⟨(recognitionOnResult_state rs s).2.2.1, (recognitionOnResult_state rs s).2.2.2.1⟩

lemma interactionBehavior_processEvents (evs : List PerceptionEvent) (s : ScannerState) :
    (processEvents s evs).features.interactionBehavior = s.features.interactionBehavior := by
  induction evs generalizing s with
  | nil => rfl
  | cons e evs ih =>
    rw [processEvents_cons, ih]
    cases e with
    | handFrame o t => exact (handsOnResults_state o t s).2.2.2.1
    | poseFrame o => exact (poseOnResults_state o s).2.2.2.1
    | speechResult rs => exact (recognitionOnResult_state rs s).2.2.2.2.1

lemma nonSpeech_any_hasFinalSpeech (evs : List PerceptionEvent)
    (h : evs.all (fun e => !isSpeechEvent e) = true) :
    evs.any hasFinalSpeech = false := by
  rw [List.any_eq_false]
  intro e he
  have := (List.all_eq_true.mp h) e he
  cases e <;> simp_all [isSpeechEvent, hasFinalSpeech]

/-- C5: finalizing a window with zero observed events returns the all-neutral
FeatureVector (handSignFreq 0, speechDetected false, gazePattern normal,
posture standing, interactionBehavior absent); more generally each feature
whose perception source produced no events stays at its neutral default. -/
theorem neutral_defaults_rule (evs : List PerceptionEvent) :
    ((completeScan initialState).2
        = some { features := { handSignFreq := 0
                               speechDetected := false
                               gazePattern := .normal
                               posture := .standing
                               interactionBehavior := none }
                 duration := scanDuration }) ∧
    (evs.all (fun e => !isHandEvent e) = true →
        (scanFeatures (processEvents initialState evs)).handSignFreq = 0) ∧
    (evs.all (fun e => !isSpeechEvent e) = true →
        (scanFeatures (processEvents initialState evs)).speechDetected = false) ∧
    (evs.all (fun e => !isPoseEvent e) = true →
        (scanFeatures (processEvents initialState evs)).gazePattern = .normal ∧
        (scanFeatures (processEvents initialState evs)).posture = .standing) ∧
    (scanFeatures (processEvents initialState evs)).interactionBehavior = none := by
  refine ⟨rfl, ?_, ?_, ?_, ?_⟩
  · intro h
    show min (processEvents initialState evs).features.handSignFreq 10 = 0
    rw [nonHand_processEvents evs initialState h]
    norm_num [initialState, initialFeatures]
  · intro h
    show ((processEvents initialState evs).features.speechDetected ||
      (processEvents initialState evs).liveStats.speechDetected) = false
    rw [(speechDetected_processEvents evs initialState).1,
      (speechDetected_processEvents evs initialState).2,
      nonSpeech_any_hasFinalSpeech evs h]
    simp [initialState, initialFeatures, initialLiveStats]
  · intro h
    rcases nonPose_processEvents evs initialState h with ⟨hg, hp⟩
    constructor
    · show (processEvents initialState evs).features.gazePattern.getD .normal = .normal
      rw [hg]; rfl
    · show (processEvents initialState evs).features.posture.getD .standing = .standing
      rw [hp]; rfl
  · show (match (processEvents initialState evs).features.interactionBehavior with
      | some t => if t = "" then none else some t
      | none => none) = none
    rw [interactionBehavior_processEvents evs initialState]
    rfl

/-- Witness for C5 at the empty event stream. -/
theorem neutral_defaults_rule_witness :
    ((completeScan initialState).2
        = some { features := { handSignFreq := 0
                               speechDetected := false
                               gazePattern := .normal
                               posture := .standing
                               interactionBehavior := none }
                 duration := scanDuration }) ∧
    (scanFeatures (processEvents initialState [])).handSignFreq = 0 ∧
    (scanFeatures (processEvents initialState [])).speechDetected = false ∧
    ((scanFeatures (processEvents initialState [])).gazePattern = .normal ∧
     (scanFeatures (processEvents initialState [])).posture = .standing) ∧
    (scanFeatures (processEvents initialState [])).interactionBehavior = none :=
  ⟨(neutral_defaults_rule []).1, (neutral_defaults_rule []).2.1 rfl,
   (neutral_defaults_rule []).2.2.1 rfl, (neutral_defaults_rule []).2.2.2.1 rfl,
   (neutral_defaults_rule []).2.2.2.2⟩
/-- C3: on each hand-landmark frame the history is bounded to the last 10
wrist samples; the Euclidean displacement between the two most recent samples
is compared with 0.01 (equivalently, its square with 0.0001), and on movement
`handSignFreq` gains exactly 0.2, otherwise it is unchanged, capped at 10. -/
theorem gesture_step_rule (s : ScannerState) (hscan : s.isScanning = true)
    (hle : s.features.handSignFreq ≤ 10)
    (hands : List Hand) (t : ℚ) (hw : hands ≠ []) :
    (processEvent s (.handFrame (some hands) t)).features.handMovementHistory
        = sliceLast 10 (s.features.handMovementHistory ++ wristSamples hands t) ∧
    (sliceLast 10 (s.features.handMovementHistory ++ wristSamples hands t)).length ≤ 10 ∧
    (processEvent s (.handFrame (some hands) t)).features.handSignFreq
        = (let recent := sliceLast 10 (s.features.handMovementHistory ++ wristSamples hands t)
           if 2 ≤ recent.length then
             if 1 / 10000 < distSq (recent.getD (recent.length - 1) ⟨0, 0, 0, 0⟩)
                                   (recent.getD (recent.length - 2) ⟨0, 0, 0, 0⟩) then
               min (s.features.handSignFreq + 2 / 10) 10
             else
               s.features.handSignFreq
           else
             s.features.handSignFreq) := by
  have hlen : 0 < hands.length := List.length_pos.mpr hw
  refine ⟨?_, ?_, ?_⟩
  · unfold processEvent handsOnResults analyzeHandGestures
    simp [hscan, hlen]
  · simp only [sliceLast, List.length_drop]
    omega
  · unfold processEvent handsOnResults analyzeHandGestures
    simp only [hscan, hlen, if_true, gt_iff_lt, decide_eq_true_eq]
    split_ifs <;> simp_all [min_eq_left hle]

/-- Witness for C3: one frame with two wrists 1 apart bumps the frequency
from 0 to 0.2. -/
theorem gesture_step_rule_witness :
    (processEvent initialState
        (.handFrame (some [[⟨0, 0, 0⟩], [⟨1, 1, 0⟩]]) 0)).features.handSignFreq = 1 / 5 := by
  have h := gesture_step_rule initialState rfl (by norm_num [initialState, initialFeatures])
      [[⟨0, 0, 0⟩], [⟨1, 1, 0⟩]] 0 (by simp)
  rw [h.2.2]
  norm_num [sliceLast, wristSamples, initialState, initialFeatures, distSq]

lemma analyzeHandGestures_freq (hands : List Hand) (t : ℚ) (s : ScannerState)
    (h0 : 0 ≤ s.features.handSignFreq) (h10 : s.features.handSignFreq ≤ 10) :
    s.features.handSignFreq ≤ (analyzeHandGestures hands t s).features.handSignFreq ∧
    0 ≤ (analyzeHandGestures hands t s).features.handSignFreq ∧
    (analyzeHandGestures hands t s).features.handSignFreq ≤ 10 := by
  unfold analyzeHandGestures
  dsimp only
  split_ifs with hl h2 hd
  · exact ⟨le_min (by linarith) h10, le_min (by linarith) (by norm_num), min_le_right _ _⟩
  · exact ⟨le_min (le_refl _) h10, le_min h0 (by norm_num), min_le_right _ _⟩
  · exact ⟨le_min (le_refl _) h10, le_min h0 (by norm_num), min_le_right _ _⟩
  · exact ⟨le_refl _, h0, h10⟩

lemma handSignFreq_step (s : ScannerState) (e : PerceptionEvent)
    (h0 : 0 ≤ s.features.handSignFreq) (h10 : s.features.handSignFreq ≤ 10) :
    s.features.handSignFreq ≤ (processEvent s e).features.handSignFreq ∧
    0 ≤ (processEvent s e).features.handSignFreq ∧
    (processEvent s e).features.handSignFreq ≤ 10 := by
  cases e with
  | poseFrame o =>
    rw [show (processEvent s (.poseFrame o)).features.handSignFreq
        = s.features.handSignFreq from (poseOnResults_state o s).1]
    exact ⟨le_refl _, h0, h10⟩
  | speechResult rs =>
    rw [show (processEvent s (.speechResult rs)).features.handSignFreq
        = s.features.handSignFreq from (recognitionOnResult_state rs s).2.1]
    exact ⟨le_refl _, h0, h10⟩
  | handFrame o t =>
    cases o with
    | none =>
      unfold processEvent handsOnResults
      split_ifs <;> exact ⟨le_refl _, h0, h10⟩
    | some hands =>
      unfold processEvent handsOnResults
      split_ifs with hs
      · exact analyzeHandGestures_freq hands t s h0 h10
      · exact ⟨le_refl _, h0, h10⟩

lemma handSignFreq_processEvents (evs : List PerceptionEvent) (s : ScannerState)
    (h0 : 0 ≤ s.features.handSignFreq) (h10 : s.features.handSignFreq ≤ 10) :
    0 ≤ (processEvents s evs).features.handSignFreq ∧
    (processEvents s evs).features.handSignFreq ≤ 10 := by
  induction evs generalizing s with
  | nil => exact ⟨h0, h10⟩
  | cons e evs ih =>
    rcases handSignFreq_step s e h0 h10 with ⟨_, b0, b10⟩
    rw [processEvents_cons]
    exact ih _ b0 b10

/-- C4: throughout a window `handSignFreq` stays in [0, 10] and processing
any further event never decreases it. -/
theorem handSignFreq_invariant (evs : List PerceptionEvent) (e : PerceptionEvent) :
    0 ≤ (processEvents initialState evs).features.handSignFreq ∧
    (processEvents initialState evs).features.handSignFreq ≤ 10 ∧
    (processEvents initialState evs).features.handSignFreq
        ≤ (processEvent (processEvents initialState evs) e).features.handSignFreq ∧
    (processEvent (processEvents initialState evs) e).features.handSignFreq ≤ 10 := by
  rcases handSignFreq_processEvents evs initialState
      (by norm_num [initialState, initialFeatures])
      (by norm_num [initialState, initialFeatures]) with ⟨g0, g10⟩
  rcases handSignFreq_step _ e g0 g10 with ⟨mono, _, b10⟩
  exact ⟨g0, g10, mono, b10⟩

lemma poseOnResults_posture (s : ScannerState) (hscan : s.isScanning = true)
    (lms : List Landmark) (leftHip rightHip leftAnkle rightAnkle : Landmark)
    (h23 : lms[23]? = some leftHip) (h24 : lms[24]? = some rightHip)
    (h27 : lms[27]? = some leftAnkle) (h28 : lms[28]? = some rightAnkle) :
    (poseOnResults (some lms) s).features.posture =
      some (if |(leftHip.y + rightHip.y) / 2 - (leftAnkle.y + rightAnkle.y) / 2| < 2 / 10
            then Posture.seated else Posture.standing) := by
  have h0 : lms[0]? = some (lms.get ⟨0, by
      by_contra hc
      rw [List.getElem?_eq_none (by omega)] at h23
      exact Option.noConfusion h23⟩) :=
    List.getElem?_eq_getElem _
  unfold poseOnResults analyzePose
  simp [hscan, h0, h23, h24, h27, h28]

lemma poseOnResults_gaze (s : ScannerState) (hscan : s.isScanning = true)
    (lms : List Landmark) (nose : Landmark) (h0 : lms[0]? = some nose) :
    (poseOnResults (some lms) s).features.gazePattern =
      some (if nose.x < 3 / 10 ∨ 7 / 10 < nose.x
            then GazePattern.inconsistent else GazePattern.normal) := by
  unfold poseOnResults analyzePose
  cases h23 : lms[23]? <;> cases h24 : lms[24]? <;>
    cases h27 : lms[27]? <;> cases h28 : lms[28]? <;>
      simp [hscan, h0, h23, h24, h27, h28]

/-- C6: for every pose frame with both hips and both ankles present, posture
is seated exactly when the absolute difference between the mean hip height
and the mean ankle height is below 0.2, else standing. -/
theorem posture_rule (s : ScannerState) (hscan : s.isScanning = true)
    (lms : List Landmark) (leftHip rightHip leftAnkle rightAnkle : Landmark)
    (h23 : lms[23]? = some leftHip) (h24 : lms[24]? = some rightHip)
    (h27 : lms[27]? = some leftAnkle) (h28 : lms[28]? = some rightAnkle) :
    (poseOnResults (some lms) s).features.posture =
      some (if |(leftHip.y + rightHip.y) / 2 - (leftAnkle.y + rightAnkle.y) / 2| < 2 / 10
            then Posture.seated else Posture.standing) :=
  poseOnResults_posture s hscan lms leftHip rightHip leftAnkle rightAnkle h23 h24 h27 h28

/-- Witness for C6: hips and ankles at the same height classify as seated. -/
theorem posture_rule_witness :
    (poseOnResults (some (List.replicate 29 (⟨0, 1, 0⟩ : Landmark)))
        initialState).features.posture = some Posture.seated := by
  rw [posture_rule initialState rfl (List.replicate 29 ⟨0, 1, 0⟩)
    ⟨0, 1, 0⟩ ⟨0, 1, 0⟩ ⟨0, 1, 0⟩ ⟨0, 1, 0⟩ rfl rfl rfl rfl]
  norm_num

/-- C7: for every pose frame providing a nose landmark, the gaze pattern is
inconsistent exactly when the nose x-coordinate is below 0.3 or above 0.7,
and normal otherwise. -/
theorem gaze_rule (s : ScannerState) (hscan : s.isScanning = true)
    (lms : List Landmark) (nose : Landmark) (h0 : lms[0]? = some nose) :
    (poseOnResults (some lms) s).features.gazePattern =
      some (if nose.x < 3 / 10 ∨ 7 / 10 < nose.x
            then GazePattern.inconsistent else GazePattern.normal) :=
  poseOnResults_gaze s hscan lms nose h0

/-- Witness for C7: a nose at x = 1 classifies as inconsistent. -/
theorem gaze_rule_witness :
    (poseOnResults (some [(⟨1, 0, 0⟩ : Landmark)]) initialState).features.gazePattern
      = some GazePattern.inconsistent := by
  rw [gaze_rule initialState rfl [⟨1, 0, 0⟩] ⟨1, 0, 0⟩ rfl]
  norm_num

/-- C10: the finalized gazePattern and posture equal the classification of
the most recent qualifying pose frame — the result depends only on that
frame, for an arbitrary prior scanner state, so each qualifying frame
overwrites the previous value and no aggregation over the window occurs. -/
theorem latest_pose_overwrites (s : ScannerState) (hscan : s.isScanning = true)
    (lms : List Landmark) (nose leftHip rightHip leftAnkle rightAnkle : Landmark)
    (h0 : lms[0]? = some nose)
    (h23 : lms[23]? = some leftHip) (h24 : lms[24]? = some rightHip)
    (h27 : lms[27]? = some leftAnkle) (h28 : lms[28]? = some rightAnkle) :
    (scanFeatures (poseOnResults (some lms) s)).gazePattern
        = (if nose.x < 3 / 10 ∨ 7 / 10 < nose.x then GazePattern.inconsistent
           else GazePattern.normal) ∧
    (scanFeatures (poseOnResults (some lms) s)).posture
        = (if |(leftHip.y + rightHip.y) / 2 - (leftAnkle.y + rightAnkle.y) / 2| < 2 / 10
           then Posture.seated else Posture.standing) := by
  constructor
  · show (poseOnResults (some lms) s).features.gazePattern.getD .normal = _
    rw [poseOnResults_gaze s hscan lms nose h0]
    rfl
  · show (poseOnResults (some lms) s).features.posture.getD .standing = _
    rw [poseOnResults_posture s hscan lms leftHip rightHip leftAnkle rightAnkle h23 h24 h27 h28]
    rfl

/-- Witness for C10: after an off-center frame (nose x = 0, classified
inconsistent), one final centered frame yields gazePattern normal. -/
theorem latest_pose_overwrites_witness :
    (scanFeatures (poseOnResults (some (List.replicate 29 (⟨1/2, 1/2, 0⟩ : Landmark)))
        (processEvents initialState [.poseFrame (some [⟨0, 0, 0⟩])]))).gazePattern
      = GazePattern.normal ∧
    (scanFeatures (poseOnResults (some (List.replicate 29 (⟨1/2, 1/2, 0⟩ : Landmark)))
        (processEvents initialState [.poseFrame (some [⟨0, 0, 0⟩])]))).posture
      = Posture.seated := by
  rcases latest_pose_overwrites (processEvents initialState [.poseFrame (some [⟨0, 0, 0⟩])])
      (by rw [processEvents_isScanning]; rfl) (List.replicate 29 ⟨1/2, 1/2, 0⟩)
      ⟨1/2, 1/2, 0⟩ ⟨1/2, 1/2, 0⟩ ⟨1/2, 1/2, 0⟩ ⟨1/2, 1/2, 0⟩ ⟨1/2, 1/2, 0⟩
      rfl rfl rfl rfl rfl with ⟨h1, h2⟩
  rw [h1, h2]
  norm_num

/-- C1 counterexample: at confidence exactly 0.7 the spec claims the accept
action is enabled, but `isHighConfidence` uses the strict comparison
`confidence > 0.7`, so the Accept Recommendation button is disabled. -/
theorem accept_gate_boundary_cex :
    ((7 : ℚ) / 10 ≥ 7 / 10) ∧ acceptEnabled (7 / 10) = false :=
  ⟨le_refl _, by norm_num [acceptEnabled, isHighConfidence]⟩

/-- C1 (amended): the accept action is enabled exactly when the confidence is
strictly greater than 0.7; at exactly 0.7 direct acceptance is disabled. -/
theorem accept_gate_strict (confidence : ℚ) :
    acceptEnabled confidence = true ↔ 7 / 10 < confidence := by
  simp [acceptEnabled, isHighConfidence]

/-- C2 counterexample: cancelling an in-progress scan (here: one with an
observed hand frame) via `stopScan` delivers no scan result at all — the
claimed FeatureVector for the cancelled scan does not exist. -/
theorem stopScan_drops_result_cex :
    (stopScan (processEvents initialState
      [.handFrame (some [[⟨0, 0, 0⟩], [⟨1, 1, 0⟩]]) 0])).2 = none := rfl

/-- C2 (amended): the `stopScan` cancel path discards the scan — it produces
no FeatureVector and nothing reaches the scoring pipeline; only `completeScan`
finalization, which can run against any accumulated state, always produces a
complete FeatureVector with no failure state. -/
theorem cancel_drops_complete_total (s : ScannerState) (evs : List PerceptionEvent) :
    (stopScan s).2 = none ∧
    (completeScan (processEvents initialState evs)).2
      = some { features := scanFeatures (processEvents initialState evs)
               duration := scanDuration } :=
  ⟨rfl, rfl⟩

set_option maxHeartbeats 1600000 in
/-- C9 (spec-modelled): whenever `m` attains the maximal score, the
recommended mode scores the same as `m` and sits no later in the priority
order `voice, sign, text, gesture, motor`; hence among tied maxima the
earliest is returned. -/
theorem tiebreak_rule (scores : ModeScoreMap) (m : Mode)
    (hmax : ∀ m', scores.get m' ≤ scores.get m) :
    scores.get (recommendMode scores) = scores.get m ∧
    priorityIdx (recommendMode scores) ≤ priorityIdx m := by
  have hv := hmax .voice
  have hs := hmax .sign
  have ht := hmax .text
  have hg := hmax .gesture
  have hm := hmax .motor
  clear hmax
  unfold recommendMode modePriority
  simp only [List.foldl_cons, List.foldl_nil]
  cases m <;>
    simp only [ModeScoreMap.get, priorityIdx] at hv hs ht hg hm ⊢ <;>
      split_ifs <;>
        constructor <;>
          first
            | rfl
            | omega
            | linarith

/-- Witness for C9: with voice, sign and text tied at the maximum 1/2, the
recommendation scores like sign and is no later than sign in the priority
order. -/
theorem tiebreak_rule_witness :
    (⟨1/2, 1/2, 1/2, 1/4, 1/4⟩ : ModeScoreMap).get
        (recommendMode ⟨1/2, 1/2, 1/2, 1/4, 1/4⟩)
      = (⟨1/2, 1/2, 1/2, 1/4, 1/4⟩ : ModeScoreMap).get .sign ∧
    priorityIdx (recommendMode ⟨1/2, 1/2, 1/2, 1/4, 1/4⟩) ≤ priorityIdx .sign :=
  tiebreak_rule ⟨1/2, 1/2, 1/2, 1/4, 1/4⟩ .sign
    (by intro mm; cases mm <;> norm_num [ModeScoreMap.get])


end InclusiveAI
